import Mathlib

/-!
Verification development for the `cookie-app` repository: a cookie-consent
banner component (`CookieConsent.tsx`), a state-reading hook (`useConsent`),
and a consent-mode bootstrap script generator (`consent-mode.ts`).

The browser storage is modelled as two optional string entries (the level key
`loi25-consent` and the timestamp key `loi25-consent-date`) together with a
`failing` flag: when the flag is set every storage operation throws, which the
source code catches.  Times are modelled exactly: JavaScript computes
`(Date.now() - parseInt(d,10)) / 86400000` as a float and compares it with the
expiry-day count; for a parsed timestamp `t` this comparison is equivalent to
comparing `now - t` with `expiryDays * 86400000` over the integers, which is
how it is rendered here.  `parseInt(d, 10)` returning `NaN` is modelled as
`none`, and each comparison against a possibly-`NaN` value is translated with
the JavaScript rule that every comparison with `NaN` is false.
-/

namespace CookieApp

/-- Milliseconds per day: `1000 * 60 * 60 * 24`. -/
def msPerDay : Int := 86400000

/-- `localStorage` key for the consent level (`src/defaults.ts`). -/
def STORAGE_KEY : String := "loi25-consent"

/-- `localStorage` key for the consent timestamp (`src/defaults.ts`). -/
def STORAGE_DATE_KEY : String := "loi25-consent-date"

/-- Custom event dispatched when consent changes (`src/defaults.ts`). -/
def CONSENT_CHANGE_EVENT : String := "loi25-consent-change"

/-- Default consent expiry in days (`src/defaults.ts`). -/
def DEFAULT_EXPIRY_DAYS : Int := 365

/-- Default `wait_for_update` in milliseconds (`src/defaults.ts`). -/
def DEFAULT_WAIT_FOR_UPDATE : Int := 500

/-- Value of a digit character. -/
def digitsToNat (l : List Char) : Nat :=
  l.foldl (fun acc c => acc * 10 + (c.toNat - 48)) 0

/-- Model of JavaScript `parseInt(s, 10)`: skip leading spaces, read an
optional sign and then the maximal run of leading decimal digits; if that run
is empty the result is `NaN`, modelled as `none`. -/
def jsParseInt10 (s : String) : Option Int :=
  let l := s.data.dropWhile (fun c => c = ' ')
  let sl : Int × List Char :=
    match l with
    | '-' :: rest => (-1, rest)
    | '+' :: rest => (1, rest)
    | _ => (1, l)
  let ds := sl.2.takeWhile (fun c => c.isDigit)
  if ds.isEmpty then none else some (sl.1 * (digitsToNat ds : Int))

/-- The two consent `localStorage` entries, plus a flag modelling a storage
whose every operation throws (disabled storage, quota, non-browser context). -/
structure Storage where
  level : Option String
  date : Option String
  failing : Bool
deriving Repr, DecidableEq

/-- JavaScript truthiness of a nullable string: `null` and `""` are falsy. -/
def truthy : Option String → Bool
  | none => false
  | some s => s ≠ ""

/-- Translation of `isExpired` (`src/CookieConsent.tsx`, lines 23–32; the
hook in `use-consent.ts` has the identical function).  Note the JavaScript
behaviour on an unparsable timestamp: `parseInt` yields `NaN`, the computed
age is `NaN`, and `NaN > expiryDays` is `false`, so the record does NOT count
as expired. -/
def isExpired (now expiryDays : Int) (st : Storage) : Bool :=
  if st.failing then true
  else
    match st.date with
    | none => true
    | some d =>
      if d = "" then true
      else
        match jsParseInt10 d with
        | none => false
        | some t => decide (now - t > expiryDays * msPerDay)

/-- Translation of `getStoredConsent` (`src/CookieConsent.tsx`, lines 34–47).
Returns the read result together with the storage after the side effects. -/
def getStoredConsent (now expiryDays : Int) (st : Storage) :
    Option String × Storage :=
  if st.failing then (none, st)
  else if truthy st.level ∧ ¬ isExpired now expiryDays st then (st.level, st)
  else if truthy st.level then
    (none, { st with level := none, date := none })
  else (none, st)

/-- Translation of `getSnapshot` from the `useConsent` hook. -/
def getSnapshot (st : Storage) : Option String :=
  if st.failing then none else st.level

/-- Payload of a `gtag('consent','update', ...)` call: the four adjustable
tracking categories. -/
structure ConsentUpdatePayload where
  ad_storage : String
  ad_user_data : String
  ad_personalization : String
  analytics_storage : String
deriving Repr, DecidableEq

/-- Payload of a `gtag('consent','default', ...)` call: four tracking
categories, three non-tracking categories, the grace period, and the
optional region list (absent when the `region` key was not inserted). -/
structure DefaultPayload where
  ad_storage : String
  ad_user_data : String
  ad_personalization : String
  analytics_storage : String
  functionality_storage : String
  personalization_storage : String
  security_storage : String
  wait_for_update : Int
  region : Option (List String)
deriving Repr, DecidableEq

/-- An observable `gtag(...)` call issued by the component. -/
inductive GtagCall where
  | consentDefault (p : DefaultPayload)
  | consentUpdate (p : ConsentUpdatePayload)
  | setOpt (key : String) (value : Bool)
deriving Repr, DecidableEq

/-- The `consent('update', ...)` payload granting all four tracking
categories, as written literally in the source. -/
def grantAllUpdate : ConsentUpdatePayload :=
  { ad_storage := "granted"
    ad_user_data := "granted"
    ad_personalization := "granted"
    analytics_storage := "granted" }

/-- The update payload built by `handleConsent` (`CookieConsent.tsx`,
lines 368–374): `granted = (level === "all")`, every category mapped to
`granted ? "granted" : "denied"`. -/
def updateFor (level : String) : ConsentUpdatePayload :=
  let g := if level = "all" then "granted" else "denied"
  { ad_storage := g, ad_user_data := g, ad_personalization := g
    analytics_storage := g }

/-- Everything observable about one `handleConsent(level)` call. -/
structure HandleConsentResult where
  storage : Storage
  consentState : Option String
  gtagCalls : List GtagCall
  callbackCalls : List String
  events : List String
deriving Repr, DecidableEq

/-- Translation of `handleConsent` (`CookieConsent.tsx`, lines 348–395).
`consentMode` is the prop; `gtagDefined` records whether `window.gtag`
exists.  The storage write is wrapped in try/catch (no-op on a failing
storage); the in-memory state update, the consent-mode update call, the
host callback and the change-event dispatch happen unconditionally. -/
def handleConsent (consentMode gtagDefined : Bool) (now : Int)
    (level : String) (st : Storage) : HandleConsentResult :=
  let st1 :=
    if st.failing then st
    else { st with level := some level, date := some (toString now) }
  let calls :=
    if consentMode ∧ gtagDefined then [GtagCall.consentUpdate (updateFor level)]
    else []
  { storage := st1
    consentState := some level
    gtagCalls := calls
    callbackCalls := [level]
    events := [CONSENT_CHANGE_EVENT] }

/-- Everything observable about one `handleReconsent()` call. -/
structure ReconsentResult where
  storage : Storage
  consentState : Option String
  showBanner : Bool
  scriptsInjected : Bool
  events : List String
deriving Repr, DecidableEq

/-- Translation of `handleReconsent` (`CookieConsent.tsx`, lines 398–410):
clear both storage entries (try/catch), reset the in-memory state, re-show
the banner, clear the one-shot injection guard and dispatch the change
event. -/
def handleReconsent (st : Storage) : ReconsentResult :=
  let st1 :=
    if st.failing then st else { st with level := none, date := none }
  { storage := st1
    consentState := none
    showBanner := true
    scriptsInjected := false
    events := [CONSENT_CHANGE_EVENT] }

/-- Translation of `setConsent` from the `useConsent` hook: write both
entries (try/catch) and dispatch the change event.  The returned list is
the sequence of events dispatched after the write. -/
def setConsent (now : Int) (level : String) (st : Storage) :
    Storage × List String :=
  (if st.failing then st
   else { st with level := some level, date := some (toString now) },
   [CONSENT_CHANGE_EVENT])

/-- Translation of `resetConsent` from the `useConsent` hook: remove both
entries (try/catch) and dispatch the change event. -/
def resetConsent (st : Storage) : Storage × List String :=
  (if st.failing then st else { st with level := none, date := none },
   [CONSENT_CHANGE_EVENT])

/-- Props of the component relevant to the consent-mode effect. -/
structure EffectEnv where
  consentMode : Bool
  mounted : Bool
  waitForUpdate : Int
  consentModeRegion : Option (List String)
  adsDataRedaction : Bool
  urlPassthrough : Bool
deriving Repr, DecidableEq

/-- Mutable browser/ref state seen by the consent-mode effect. -/
structure EffectState where
  dataLayerDefined : Bool
  gtagDefined : Bool
  inited : Bool
deriving Repr, DecidableEq

/-- The `defaultConsent` record built by the consent-mode effect
(`CookieConsent.tsx`, lines 262–276): four tracking categories denied,
three non-tracking categories granted, `wait_for_update` from the prop,
and `region` inserted only when `consentModeRegion` is provided with
positive length. -/
def defaultConsentPayload (waitForUpdate : Int)
    (consentModeRegion : Option (List String)) : DefaultPayload :=
  let base : DefaultPayload :=
    { ad_storage := "denied"
      ad_user_data := "denied"
      ad_personalization := "denied"
      analytics_storage := "denied"
      functionality_storage := "granted"
      personalization_storage := "granted"
      security_storage := "granted"
      wait_for_update := waitForUpdate
      region := none }
  match consentModeRegion with
  | some r => if r.length > 0 then { base with region := some r } else base
  | none => base

/-- Translation of the Google Consent Mode effect (`CookieConsent.tsx`,
lines 241–300).  `consent` is the component's consent state at the time the
effect runs (the stored consent read on mount).  Returns the new effect
state and the list of `gtag` calls issued, in order. -/
def consentModeEffect (env : EffectEnv) (consent : Option String)
    (es : EffectState) : EffectState × List GtagCall :=
  if ¬ env.consentMode ∨ ¬ env.mounted then (es, [])
  else
    let es1 := { es with dataLayerDefined := true, gtagDefined := true }
    if es1.inited then (es1, [])
    else
      let es2 := { es1 with inited := true }
      let calls :=
        [GtagCall.consentDefault
          (defaultConsentPayload env.waitForUpdate env.consentModeRegion)]
        ++ (if env.adsDataRedaction then
              [GtagCall.setOpt "ads_data_redaction" true] else [])
        ++ (if env.urlPassthrough then
              [GtagCall.setOpt "url_passthrough" true] else [])
        ++ (if consent = some "all" then
              [GtagCall.consentUpdate grantAllUpdate] else [])
      (es2, calls)

/-- Component state relevant to the script-vault effect
(`CookieConsent.tsx`, lines 312–332): the consent state, the mount flag
and the one-shot injection guard `scriptsInjectedRef`. -/
structure InjState where
  consent : Option String
  mounted : Bool
  scriptsInjected : Bool
deriving Repr, DecidableEq

/-- Events acting on the injection state within one component mount:
a run of the script-vault effect, an explicit user decision handled by
`handleConsent`, and a full reset via `handleReconsent`. -/
inductive InjEv where
  | injectEffect
  | consentChosen (level : String)
  | reconsent
deriving Repr, DecidableEq

/-- One step of the injection state machine.  The returned number counts how
many times the supplied markup was injected into the document head during the
step.  The effect injects only when `scripts` is non-empty, consent is
`"all"`, the component is mounted and the guard is clear, and it sets the
guard; `handleConsent` only updates the consent state; `handleReconsent`
clears the consent state and the guard. -/
def injStep (scripts : String) (s : InjState) : InjEv → InjState × Nat
  | InjEv.injectEffect =>
    if scripts ≠ "" ∧ s.consent = some "all" ∧ s.mounted = true ∧
        s.scriptsInjected = false then
      ({ s with scriptsInjected := true }, 1)
    else (s, 0)
  | InjEv.consentChosen level => ({ s with consent := some level }, 0)
  | InjEv.reconsent => ({ s with consent := none, scriptsInjected := false }, 0)

/-- Run a list of events from a state, accumulating the injection count. -/
def injRun (scripts : String) (s : InjState) : List InjEv → InjState × Nat
  | [] => (s, 0)
  | e :: rest =>
    let p := injStep scripts s e
    let q := injRun scripts p.1 rest
    (q.1, p.2 + q.2)

/-- The options record of `getConsentModeScript` (`consent-mode.ts`,
`ConsentModeDefaults`): every field optional. -/
structure ConsentModeDefaults where
  analytics_storage : Option String := none
  ad_storage : Option String := none
  ad_user_data : Option String := none
  ad_personalization : Option String := none
  functionality_storage : Option String := none
  personalization_storage : Option String := none
  security_storage : Option String := none
  wait_for_update : Option Int := none
  region : Option (List String) := none
  ads_data_redaction : Option Bool := none
  url_passthrough : Option Bool := none
  expiry_days : Option Int := none
deriving Repr, DecidableEq

/-- The resolved `defaultObj` built by `getConsentModeScript`
(`consent-mode.ts`, lines 88–115): `??` defaults applied, `region` key
inserted only when provided with positive length. -/
def resolveDefaultObj (o : ConsentModeDefaults) : DefaultPayload :=
  { ad_storage := o.ad_storage.getD "denied"
    ad_user_data := o.ad_user_data.getD "denied"
    ad_personalization := o.ad_personalization.getD "denied"
    analytics_storage := o.analytics_storage.getD "denied"
    functionality_storage := o.functionality_storage.getD "granted"
    personalization_storage := o.personalization_storage.getD "granted"
    security_storage := o.security_storage.getD "granted"
    wait_for_update := o.wait_for_update.getD 500
    region :=
      match o.region with
      | some r => if r.length > 0 then some r else none
      | none => none }

/-- JSON escaping of one character (`JSON.stringify` on the strings used
here: quote and backslash escaped, other characters kept). -/
def jsonEscapeChar (c : Char) : List Char :=
  if c = '\"' then ['\\', '\"']
  else if c = '\\' then ['\\', '\\']
  else [c]

/-- Model of `JSON.stringify` on a string value. -/
def jsonQuote (s : String) : String :=
  ⟨'\"' :: s.data.foldr (fun c acc => jsonEscapeChar c ++ acc) ['\"']⟩

/-- Model of `JSON.stringify` on an array of strings. -/
def jsonArray (l : List String) : String :=
  "[" ++ String.intercalate "," (l.map jsonQuote) ++ "]"

/-- Model of `JSON.stringify(defaultObj)`: keys in insertion order, the
`region` key present only when it was inserted. -/
def serializeDefaultPayload (p : DefaultPayload) : String :=
  "\x7b\"ad_storage\":" ++ jsonQuote p.ad_storage
  ++ ",\"ad_user_data\":" ++ jsonQuote p.ad_user_data
  ++ ",\"ad_personalization\":" ++ jsonQuote p.ad_personalization
  ++ ",\"analytics_storage\":" ++ jsonQuote p.analytics_storage
  ++ ",\"functionality_storage\":" ++ jsonQuote p.functionality_storage
  ++ ",\"personalization_storage\":" ++ jsonQuote p.personalization_storage
  ++ ",\"security_storage\":" ++ jsonQuote p.security_storage
  ++ ",\"wait_for_update\":" ++ toString p.wait_for_update
  ++ (match p.region with
      | some r => ",\"region\":" ++ jsonArray r
      | none => "")
  ++ "\x7d"

/-- The line list built by `getConsentModeScript` (`consent-mode.ts`,
lines 133–162) before the final `join('\n')`. -/
def consentModeScriptLines (o : ConsentModeDefaults) : List String :=
  let defaultJson := serializeDefaultPayload (resolveDefaultObj o)
  let setCalls : List String :=
    (if o.ads_data_redaction.getD false then
      ["gtag(\x27set\x27,\x27ads_data_redaction\x27,true);"] else [])
    ++ (if o.url_passthrough.getD false then
      ["gtag(\x27set\x27,\x27url_passthrough\x27,true);"] else [])
  [ "window.dataLayer=window.dataLayer||[];",
    "function gtag()\x7bdataLayer.push(arguments);\x7d",
    "gtag(\x27consent\x27,\x27default\x27," ++ (defaultJson ++ ");") ]
  ++ setCalls
  ++ [ "(function()\x7b",
       "  try\x7b",
       "    var c=localStorage.getItem(" ++ (jsonQuote STORAGE_KEY ++ ");"),
       "    var d=localStorage.getItem(" ++ (jsonQuote STORAGE_DATE_KEY ++ ");"),
       "    if(c&&d)\x7b",
       "      var age=(Date.now()-parseInt(d,10))/(1000*60*60*24);",
       "      if(age<=" ++ (toString (o.expiry_days.getD DEFAULT_EXPIRY_DAYS)
         ++ "&&c===\x27all\x27)\x7b"),
       "        gtag(\x27consent\x27,\x27update\x27,\x7b",
       "          \x27ad_storage\x27:\x27granted\x27,",
       "          \x27ad_user_data\x27:\x27granted\x27,",
       "          \x27ad_personalization\x27:\x27granted\x27,",
       "          \x27analytics_storage\x27:\x27granted\x27",
       "        \x7d);",
       "      \x7d",
       "    \x7d",
       "  \x7dcatch(e)\x7b\x7d",
       "\x7d)();" ]

/-- Translation of `getConsentModeScript` (`consent-mode.ts`, lines 85–163). -/
def getConsentModeScript (o : ConsentModeDefaults) : String :=
  String.intercalate "\n" (consentModeScriptLines o)

/-- Runtime behaviour of the inline IIFE embedded by `getConsentModeScript`:
whether, against a given storage and clock, it issues the
`consent('update', ...)` call granting all four tracking categories.
Translated from the generated script text: both entries must be truthy, and
`(Date.now()-parseInt(d,10))/86400000 <= expiryDays && c === 'all'` must
hold, where a comparison against `NaN` is false and any storage exception
aborts silently. -/
def inlineCheckFires (now expiryDays : Int) (st : Storage) : Bool :=
  if st.failing then false
  else
    match st.level, st.date with
    | some c, some d =>
      if c ≠ "" ∧ d ≠ "" then
        match jsParseInt10 d with
        | none => false
        | some t => decide (now - t ≤ expiryDays * msPerDay) && decide (c = "all")
      else false
    | _, _ => false

/-- Modelled from the amended reading of the spec's `read()` contract, for
comparison with `getStoredConsent`: the stored level string is returned
without a well-formedness check whenever it is non-empty and the record is
not expired; a record is expired when the timestamp entry is missing or
empty or parses to a time more than `E` days before `now`, while a non-empty
unparsable timestamp is treated as not expired; otherwise the read returns
null and deletes both entries exactly when the level entry is non-empty. -/
def readSpecAmended (now E : Int) (st : Storage) : Option String × Storage :=
  if st.failing then (none, st)
  else
    match st.level with
    | none => (none, st)
    | some s =>
      if s = "" then (none, st)
      else
        match st.date with
        | none => (none, { st with level := none, date := none })
        | some d =>
          if d = "" then (none, { st with level := none, date := none })
          else
            match jsParseInt10 d with
            | none => (some s, st)
            | some t =>
              if now - t ≤ E * msPerDay then (some s, st)
              else (none, { st with level := none, date := none })

/-- The storage-state invariant of the spec: the timestamp entry is present
iff the level entry is present. -/
def storageInv (st : Storage) : Prop :=
  st.level.isSome = st.date.isSome

instance (st : Storage) : Decidable (storageInv st) := by
  unfold storageInv; infer_instance

-- ─── Helper lemmas ───

theorem data_append_eq (a b : String) : (a ++ b).data = a.data ++ b.data :=
  String.data_append a b

/-- Two strings differ when the given prefix of one differs from the same
prefix of the other; used to separate a literal-headed line from a fixed
line. -/
theorem ne_of_take_ne (p j t : String) (n : Nat) (hn : n ≤ p.data.length)
    (h : p.data.take n ≠ t.data.take n) : p ++ j ≠ t := by
  intro he
  apply h
  calc p.data.take n
      = (p.data ++ j.data).take n := (List.take_append_of_le_length hn).symm
    _ = (p ++ j).data.take n := by rw [data_append_eq]
    _ = t.data.take n := by rw [he]

theorem jsParseInt10_empty : jsParseInt10 "" = none := by decide

/-- The component's default payload carries the `region` value iff the
provided list is non-empty. -/
theorem defaultConsentPayload_region_iff (w : Int)
    (reg : Option (List String)) (r : List String) :
    (defaultConsentPayload w reg).region = some r ↔ reg = some r ∧ r ≠ [] := by
  unfold defaultConsentPayload
  cases reg with
  | none => simp
  | some r' =>
    by_cases h : r'.length > 0
    · simp only [h, if_pos]
      constructor
      · intro he
        refine ⟨he, ?_⟩
        have hrr : r' = r := Option.some.inj he
        subst hrr
        exact List.length_pos.mp h
      · intro he
        exact he.1
    · have hr0 : r' = [] := List.length_eq_zero.mp (Nat.le_zero.mp (Nat.not_lt.mp h))
      subst hr0
      simp only [if_neg h]
      constructor
      · intro he
        exact absurd he (by simp)
      · rintro ⟨he, hne⟩
        exact absurd (Option.some.inj he).symm hne

/-- The script generator's resolved default object carries the `region` key
iff the provided list is non-empty. -/
theorem resolveDefaultObj_region_iff (o : ConsentModeDefaults)
    (r : List String) :
    (resolveDefaultObj o).region = some r ↔ o.region = some r ∧ r ≠ [] := by
  unfold resolveDefaultObj
  cases o.region with
  | none => simp
  | some r' =>
    by_cases h : r'.length > 0
    · simp only [h, if_pos]
      constructor
      · intro he
        refine ⟨he, ?_⟩
        have hrr : r' = r := Option.some.inj he
        subst hrr
        exact List.length_pos.mp h
      · intro he
        exact he.1
    · have hr0 : r' = [] := List.length_eq_zero.mp (Nat.le_zero.mp (Nat.not_lt.mp h))
      subst hr0
      simp only [if_neg h]
      constructor
      · intro he
        exact absurd he (by simp)
      · rintro ⟨he, hne⟩
        exact absurd (Option.some.inj he).symm hne

/-- The ads-data-redaction `set` call appears among the generated script
lines iff the resolved flag is true. -/
theorem adsLine_mem_iff (o : ConsentModeDefaults) :
    ("gtag(\x27set\x27,\x27ads_data_redaction\x27,true);" ∈
        consentModeScriptLines o)
      ↔ o.ads_data_redaction.getD false = true := by
  constructor
  · intro hmem
    by_contra hflag
    simp only [Bool.not_eq_true] at hflag
    by_cases hurl : o.url_passthrough.getD false = true <;>
      simp [consentModeScriptLines, hflag, hurl] at hmem <;>
      rcases hmem with h | h | h | h
    · exact absurd h.symm (by refine ne_of_take_ne _ _ _ 7 ?_ ?_ <;> decide)
    · exact absurd h.symm (by refine ne_of_take_ne _ _ _ 1 ?_ ?_ <;> decide)
    · exact absurd h.symm (by refine ne_of_take_ne _ _ _ 1 ?_ ?_ <;> decide)
    · exact absurd h.symm (by refine ne_of_take_ne _ _ _ 1 ?_ ?_ <;> decide)
    · exact absurd h.symm (by refine ne_of_take_ne _ _ _ 7 ?_ ?_ <;> decide)
    · exact absurd h.symm (by refine ne_of_take_ne _ _ _ 1 ?_ ?_ <;> decide)
    · exact absurd h.symm (by refine ne_of_take_ne _ _ _ 1 ?_ ?_ <;> decide)
    · exact absurd h.symm (by refine ne_of_take_ne _ _ _ 1 ?_ ?_ <;> decide)
  · intro hflag
    simp [consentModeScriptLines, hflag]

/-- The url-passthrough `set` call appears among the generated script lines
iff the resolved flag is true. -/
theorem urlLine_mem_iff (o : ConsentModeDefaults) :
    ("gtag(\x27set\x27,\x27url_passthrough\x27,true);" ∈
        consentModeScriptLines o)
      ↔ o.url_passthrough.getD false = true := by
  constructor
  · intro hmem
    by_contra hflag
    simp only [Bool.not_eq_true] at hflag
    by_cases hads : o.ads_data_redaction.getD false = true <;>
      simp [consentModeScriptLines, hflag, hads] at hmem <;>
      rcases hmem with h | h | h | h
    · exact absurd h.symm (by refine ne_of_take_ne _ _ _ 7 ?_ ?_ <;> decide)
    · exact absurd h.symm (by refine ne_of_take_ne _ _ _ 1 ?_ ?_ <;> decide)
    · exact absurd h.symm (by refine ne_of_take_ne _ _ _ 1 ?_ ?_ <;> decide)
    · exact absurd h.symm (by refine ne_of_take_ne _ _ _ 1 ?_ ?_ <;> decide)
    · exact absurd h.symm (by refine ne_of_take_ne _ _ _ 7 ?_ ?_ <;> decide)
    · exact absurd h.symm (by refine ne_of_take_ne _ _ _ 1 ?_ ?_ <;> decide)
    · exact absurd h.symm (by refine ne_of_take_ne _ _ _ 1 ?_ ?_ <;> decide)
    · exact absurd h.symm (by refine ne_of_take_ne _ _ _ 1 ?_ ?_ <;> decide)
  · intro hflag
    simp [consentModeScriptLines, hflag]

/-- Characterization of when the generated inline check issues its
`update` call: exactly when the stored level is `"all"` and the timestamp
parses to a time at most the expiry window ago. -/
theorem inlineCheckFires_iff (now E : Int) (st : Storage)
    (h : st.failing = false) :
    inlineCheckFires now E st = true ↔
      st.level = some "all" ∧
      ∃ t, st.date.bind jsParseInt10 = some t ∧ now - t ≤ E * msPerDay := by
  rcases st with ⟨lv, dt, f⟩
  simp only at h
  subst h
  cases lv with
  | none => simp [inlineCheckFires]
  | some c =>
    cases dt with
    | none => simp [inlineCheckFires]
    | some d =>
      by_cases hc : c = "all"
      · subst hc
        by_cases hd : d = ""
        · subst hd
          simp [inlineCheckFires, jsParseInt10_empty]
        · cases hp : jsParseInt10 d with
          | none => simp [inlineCheckFires, hd, hp]
          | some t0 => simp [inlineCheckFires, hd, hp]
      · cases hp : jsParseInt10 d with
        | none =>
          by_cases hc0 : c = "" <;> by_cases hd : d = "" <;>
            simp [inlineCheckFires, hc, hc0, hd, hp]
        | some t0 =>
          by_cases hc0 : c = "" <;> by_cases hd : d = "" <;>
            simp [inlineCheckFires, hc, hc0, hd, hp]

/-- The non-region fields of the component's default payload. -/
theorem defaultConsentPayload_fields (w : Int) (reg : Option (List String)) :
    (defaultConsentPayload w reg).ad_storage = "denied" ∧
    (defaultConsentPayload w reg).ad_user_data = "denied" ∧
    (defaultConsentPayload w reg).ad_personalization = "denied" ∧
    (defaultConsentPayload w reg).analytics_storage = "denied" ∧
    (defaultConsentPayload w reg).functionality_storage = "granted" ∧
    (defaultConsentPayload w reg).personalization_storage = "granted" ∧
    (defaultConsentPayload w reg).security_storage = "granted" ∧
    (defaultConsentPayload w reg).wait_for_update = w := by
  unfold defaultConsentPayload
  cases reg with
  | none => exact ⟨rfl, rfl, rfl, rfl, rfl, rfl, rfl, rfl⟩
  | some r' =>
    by_cases h : r'.length > 0 <;> simp [h]

-- ─── Claim C1 ───

/-- C1 (counterexample): the claim states that a malformed record is read as
null and deleted, but `getStoredConsent` performs no well-formedness check on
the level entry: with the malformed level `"bogus"` and a fresh timestamp it
returns `"bogus"` and leaves both entries in place. -/
theorem claim1_counterexample :
    ("bogus" ≠ "all" ∧ "bogus" ≠ "necessary") ∧
    getStoredConsent 0 365 ⟨some "bogus", some "0", false⟩ =
      (some "bogus", ⟨some "bogus", some "0", false⟩) := by
  decide

/-- C1 (amended): reading the store returns the stored level string without
a well-formedness check whenever it is non-empty and the record is not
expired (timestamp present, non-empty, and either unparsable — treated as
not expired — or parsing to a time at most `E` days old); otherwise it
returns null and deletes both entries exactly when the level entry is
non-empty.  Stated as equality of `getStoredConsent` with the spec-side
read function `readSpecAmended`. -/
theorem claim1_read_refines_amended_spec (now E : Int) (st : Storage) :
    getStoredConsent now E st = readSpecAmended now E st := by
  rcases st with ⟨lv, dt, f⟩
  cases f
  · cases lv with
    | none => simp [getStoredConsent, readSpecAmended, truthy, isExpired]
    | some s =>
      by_cases hs : s = ""
      · subst hs
        simp [getStoredConsent, readSpecAmended, truthy, isExpired]
      · cases dt with
        | none =>
          simp [getStoredConsent, readSpecAmended, truthy, isExpired, hs]
        | some d =>
          by_cases hd : d = ""
          · subst hd
            simp [getStoredConsent, readSpecAmended, truthy, isExpired, hs]
          · cases hp : jsParseInt10 d with
            | none =>
              simp [getStoredConsent, readSpecAmended, truthy, isExpired,
                hs, hd, hp]
            | some t =>
              by_cases hle : now - t ≤ E * msPerDay
              · simp [getStoredConsent, readSpecAmended, truthy, isExpired,
                  hs, hd, hp, hle, not_lt.mpr hle]
              · simp [getStoredConsent, readSpecAmended, truthy, isExpired,
                  hs, hd, hp, hle, lt_of_not_le hle]
  · simp [getStoredConsent, readSpecAmended]

-- ─── Claim C8 ───

/-- C8: the claim (and the spec's §7 taxonomy) requires an unparsable
timestamp entry to be treated as expired, i.e. every read returns null.  The
code instead computes `NaN` from `parseInt`, and `NaN > expiryDays` is
`false`, so `isExpired` answers `false` and the read returns the stored
level: with level `"all"` and timestamp `"not-a-number"` the component read
returns `"all"` forever.  (The repository's own generated inline script
treats the same record as invalid, since there `NaN <= expiryDays` is also
`false`.) -/
theorem claim8_unparsable_timestamp_eval :
    jsParseInt10 "not-a-number" = none ∧
    isExpired 0 365 ⟨some "all", some "not-a-number", false⟩ = false ∧
    getStoredConsent 0 365 ⟨some "all", some "not-a-number", false⟩ =
      (some "all", ⟨some "all", some "not-a-number", false⟩) ∧
    inlineCheckFires 0 365 ⟨some "all", some "not-a-number", false⟩ = false := by
  decide

-- ─── Claim C10 ───

/-- C10: in both consent-mode entry points (the `getConsentModeScript`
default object and the component effect's default payload) the `region`
field is attached, with the provided value, iff the provided list is
non-empty; an empty list is treated the same as an absent one. -/
theorem claim10_region_iff_nonempty (o : ConsentModeDefaults) (w : Int)
    (reg : Option (List String)) (r : List String) :
    ((resolveDefaultObj o).region = some r ↔ o.region = some r ∧ r ≠ []) ∧
    ((defaultConsentPayload w reg).region = some r ↔ reg = some r ∧ r ≠ []) :=
  ⟨resolveDefaultObj_region_iff o r, defaultConsentPayload_region_iff w reg r⟩

-- ─── Claim C3 ───

/-- C3: when consent mode is enabled and `window.gtag` exists,
`handleConsent` issues exactly one `consent('update', ...)` call, with all
four tracking categories granted when the level is `"all"` and all four
denied when the level is `"necessary"` — the update fires on both grant and
revoke. -/
theorem claim3_update_fires_both_directions (cm gt : Bool) (now : Int)
    (level : String) (st : Storage) (hcm : cm = true) (hgt : gt = true) :
    (handleConsent cm gt now level st).gtagCalls.length = 1 ∧
    (level = "all" →
      (handleConsent cm gt now level st).gtagCalls =
        [GtagCall.consentUpdate ⟨"granted", "granted", "granted", "granted"⟩]) ∧
    (level = "necessary" →
      (handleConsent cm gt now level st).gtagCalls =
        [GtagCall.consentUpdate ⟨"denied", "denied", "denied", "denied"⟩]) := by
  subst hcm hgt
  refine ⟨by simp [handleConsent], ?_, ?_⟩
  · intro h
    subst h
    simp [handleConsent, updateFor]
  · intro h
    subst h
    simp [handleConsent, updateFor]

/-- Witness for C3 at concrete inputs, both directions. -/
theorem claim3_witness :
    (handleConsent true true 0 "all" ⟨none, none, false⟩).gtagCalls =
      [GtagCall.consentUpdate ⟨"granted", "granted", "granted", "granted"⟩] ∧
    (handleConsent true true 0 "necessary" ⟨none, none, false⟩).gtagCalls =
      [GtagCall.consentUpdate ⟨"denied", "denied", "denied", "denied"⟩] :=
  ⟨(claim3_update_fires_both_directions true true 0 "all"
      ⟨none, none, false⟩ rfl rfl).2.1 rfl,
   (claim3_update_fires_both_directions true true 0 "necessary"
      ⟨none, none, false⟩ rfl rfl).2.2 rfl⟩

-- ─── Claim C6 ───

/-- C6: for every consent level, writing the level via the banner handler or
via the hook's `setConsent` sets both the level entry and a fresh timestamp
entry rendering the current time, and then dispatches the consent-change
broadcast event. -/
theorem claim6_write_sets_both_then_broadcasts (cm gt : Bool) (now : Int)
    (level : String) (st : Storage) (h : st.failing = false) :
    (handleConsent cm gt now level st).storage.level = some level ∧
    (handleConsent cm gt now level st).storage.date = some (toString now) ∧
    (handleConsent cm gt now level st).events = [CONSENT_CHANGE_EVENT] ∧
    (setConsent now level st).1.level = some level ∧
    (setConsent now level st).1.date = some (toString now) ∧
    (setConsent now level st).2 = [CONSENT_CHANGE_EVENT] := by
  simp [handleConsent, setConsent, h]

/-- Witness for C6 at concrete inputs. -/
theorem claim6_witness :
    (⟨none, none, false⟩ : Storage).failing = false ∧
    (handleConsent false false 7 "all" ⟨none, none, false⟩).storage.level =
      some "all" ∧
    (handleConsent false false 7 "all" ⟨none, none, false⟩).storage.date =
      some (toString (7 : Int)) ∧
    (setConsent 7 "all" ⟨none, none, false⟩).2 = [CONSENT_CHANGE_EVENT] :=
  ⟨rfl,
   (claim6_write_sets_both_then_broadcasts false false 7 "all"
      ⟨none, none, false⟩ rfl).1,
   (claim6_write_sets_both_then_broadcasts false false 7 "all"
      ⟨none, none, false⟩ rfl).2.1,
   (claim6_write_sets_both_then_broadcasts false false 7 "all"
      ⟨none, none, false⟩ rfl).2.2.2.2.2⟩

-- ─── Claim C7 ───

/-- C7: the invariant "the timestamp entry is present iff the level entry is
present" is preserved by every operation of the public interface: the banner
write, the reconsent clear, the expired-record cleanup inside the read, and
the hook's `setConsent` and `resetConsent`. -/
theorem claim7_presence_invariant (cm gt : Bool) (now E : Int)
    (level : String) (st : Storage) (h : storageInv st) :
    storageInv (handleConsent cm gt now level st).storage ∧
    storageInv (handleReconsent st).storage ∧
    storageInv (getStoredConsent now E st).2 ∧
    storageInv (setConsent now level st).1 ∧
    storageInv (resetConsent st).1 := by
  unfold storageInv at h ⊢
  refine ⟨?_, ?_, ?_, ?_, ?_⟩
  · cases hf : st.failing <;> simp [handleConsent, hf, h]
  · cases hf : st.failing <;> simp [handleReconsent, hf, h]
  · unfold getStoredConsent
    split_ifs <;> simp [h]
  · cases hf : st.failing <;> simp [setConsent, hf, h]
  · cases hf : st.failing <;> simp [resetConsent, hf, h]

/-- Witness for C7 at concrete inputs. -/
theorem claim7_witness :
    storageInv (⟨some "all", some "0", false⟩ : Storage) ∧
    storageInv (getStoredConsent 0 365 ⟨some "all", some "0", false⟩).2 ∧
    storageInv (handleReconsent ⟨some "all", some "0", false⟩).storage :=
  ⟨rfl,
   (claim7_presence_invariant false false 0 365 "all"
      ⟨some "all", some "0", false⟩ rfl).2.2.1,
   (claim7_presence_invariant false false 0 365 "all"
      ⟨some "all", some "0", false⟩ rfl).2.1⟩

-- ─── Claim C9 ───

/-- C9: when the storage write throws, handling a user decision still sets
the in-memory consent state to the chosen level, still invokes the host
callback with that level, and still dispatches the broadcast event, while
the storage itself is unchanged — so a callback or broadcast does not imply
persistence.  The hook's `setConsent` likewise still broadcasts. -/
theorem claim9_decision_survives_write_failure (cm gt : Bool) (now : Int)
    (level : String) (st : Storage) (h : st.failing = true) :
    (handleConsent cm gt now level st).storage = st ∧
    (handleConsent cm gt now level st).consentState = some level ∧
    (handleConsent cm gt now level st).callbackCalls = [level] ∧
    (handleConsent cm gt now level st).events = [CONSENT_CHANGE_EVENT] ∧
    (setConsent now level st).1 = st ∧
    (setConsent now level st).2 = [CONSENT_CHANGE_EVENT] := by
  simp [handleConsent, setConsent, h]

/-- Witness for C9 at a concrete failing storage. -/
theorem claim9_witness :
    (⟨none, none, true⟩ : Storage).failing = true ∧
    (handleConsent true false 3 "necessary" ⟨none, none, true⟩).storage =
      ⟨none, none, true⟩ ∧
    (handleConsent true false 3 "necessary" ⟨none, none, true⟩).consentState =
      some "necessary" ∧
    (handleConsent true false 3 "necessary" ⟨none, none, true⟩).callbackCalls =
      ["necessary"] ∧
    (handleConsent true false 3 "necessary" ⟨none, none, true⟩).events =
      [CONSENT_CHANGE_EVENT] :=
  ⟨rfl,
   (claim9_decision_survives_write_failure true false 3 "necessary"
      ⟨none, none, true⟩ rfl).1,
   (claim9_decision_survives_write_failure true false 3 "necessary"
      ⟨none, none, true⟩ rfl).2.1,
   (claim9_decision_survives_write_failure true false 3 "necessary"
      ⟨none, none, true⟩ rfl).2.2.1,
   (claim9_decision_survives_write_failure true false 3 "necessary"
      ⟨none, none, true⟩ rfl).2.2.2.1⟩

-- ─── Claim C2 ───

/-- Over any reconsent-free event segment, the number of injections is
bounded by `1`, and by `0` when the one-shot guard is already set. -/
theorem injRun_count_le (scripts : String) (evs : List InjEv) :
    ∀ s : InjState, (∀ e ∈ evs, e ≠ InjEv.reconsent) →
      (injRun scripts s evs).2 ≤ (if s.scriptsInjected = true then 0 else 1) := by
  induction evs with
  | nil =>
    intro s _
    simp [injRun]
  | cons e rest ih =>
    intro s h
    have hrest : ∀ e' ∈ rest, e' ≠ InjEv.reconsent := fun e' he' =>
      h e' (List.mem_cons_of_mem _ he')
    have hne : e ≠ InjEv.reconsent := h e (List.mem_cons_self _ _)
    cases e with
    | injectEffect =>
      by_cases hc : scripts ≠ "" ∧ s.consent = some "all" ∧
          s.mounted = true ∧ s.scriptsInjected = false
      · have hstep : injStep scripts s InjEv.injectEffect =
            ({ s with scriptsInjected := true }, 1) := by
          simp [injStep, hc]
        have htail0 :
            (injRun scripts { s with scriptsInjected := true } rest).2 = 0 :=
          Nat.le_zero.mp
            (by simpa using ih { s with scriptsInjected := true } hrest)
        simp [injRun, hstep, hc.2.2.2, htail0]
      · have hstep : injStep scripts s InjEv.injectEffect = (s, 0) := by
          simp only [injStep, if_neg hc]
        have htail := ih s hrest
        simp only [injRun, hstep]
        simpa using htail
    | consentChosen level =>
      have htail := ih { s with consent := some level } hrest
      simp only [injRun, injStep]
      simpa using htail
    | reconsent => exact absurd rfl hne

/-- C2: within one mount, with a non-empty scripts string, the supplied
markup is injected at most once between any full reset and the next
(the count over any reconsent-free trace starting with a clear guard is at
most `1`); an injection step fires only when the consent level is `"all"`;
once the guard is set, further effect runs are no-ops; and no event other
than the explicit full reset clears the guard (and the reset does clear
it). -/
theorem claim2_scripts_injected_once (scripts : String) (s s' : InjState)
    (e : InjEv) (evs : List InjEv) (h0 : s.scriptsInjected = false)
    (hnr : ∀ e' ∈ evs, e' ≠ InjEv.reconsent) :
    (injRun scripts s evs).2 ≤ 1 ∧
    ((injStep scripts s' InjEv.injectEffect).2 ≠ 0 →
      s'.consent = some "all" ∧ scripts ≠ "") ∧
    (s'.scriptsInjected = true →
      (injStep scripts s' InjEv.injectEffect).2 = 0) ∧
    (s'.scriptsInjected = true → e ≠ InjEv.reconsent →
      ((injStep scripts s' e).1).scriptsInjected = true) ∧
    ((injStep scripts s' InjEv.reconsent).1).scriptsInjected = false := by
  refine ⟨?_, ?_, ?_, ?_, ?_⟩
  · have := injRun_count_le scripts evs s hnr
    simp only [h0, if_neg Bool.false_ne_true] at this
    exact this
  · intro hne2
    by_cases hc : scripts ≠ "" ∧ s'.consent = some "all" ∧
        s'.mounted = true ∧ s'.scriptsInjected = false
    · exact ⟨hc.2.1, hc.1⟩
    · exact absurd (by simp only [injStep, if_neg hc]) hne2
  · intro hinj
    simp [injStep, hinj]
  · intro hinj hne
    cases e with
    | injectEffect => simp [injStep, hinj]
    | consentChosen level => simp [injStep, hinj]
    | reconsent => exact absurd rfl hne
  · simp [injStep]

/-- Witness for C2 at concrete inputs: two effect runs inject once; an
effect run with the guard set injects nothing; a consent event keeps the
guard; the reset clears it. -/
theorem claim2_witness :
    (injRun "x" ⟨some "all", true, false⟩
      [InjEv.injectEffect, InjEv.injectEffect]).2 ≤ 1 ∧
    (injStep "x" ⟨some "all", true, true⟩ InjEv.injectEffect).2 = 0 ∧
    ((injStep "x" ⟨some "all", true, true⟩
      (InjEv.consentChosen "all")).1).scriptsInjected = true ∧
    ((injStep "x" ⟨some "all", true, true⟩
      InjEv.reconsent).1).scriptsInjected = false :=
  have h := claim2_scripts_injected_once "x" ⟨some "all", true, false⟩
    ⟨some "all", true, true⟩ (InjEv.consentChosen "all")
    [InjEv.injectEffect, InjEv.injectEffect] rfl (by decide)
  ⟨h.1, h.2.2.1 rfl, h.2.2.2.1 rfl (by decide), h.2.2.2.2⟩

-- ─── Claim C4 ───

/-- C4 (counterexample): the claim states that the region list is attached
to the `default` signal when provided, but providing the empty list yields a
payload with no region: the effect runs with `consentModeRegion = some []`
and issues a default whose `region` field is absent. -/
theorem claim4_counterexample :
    (⟨true, true, 500, some [], false, false⟩ : EffectEnv).consentModeRegion =
      some [] ∧
    (consentModeEffect ⟨true, true, 500, some [], false, false⟩ none
        ⟨false, false, false⟩).2 =
      [GtagCall.consentDefault
        ⟨"denied", "denied", "denied", "denied", "granted", "granted",
          "granted", 500, none⟩] := by
  decide

/-- C4 (amended): with consent mode enabled, on first activation (and only
once per mount) the effect establishes the global call queue and `gtag`
function, issues first a `default` signal whose four tracking categories are
denied, whose three non-tracking categories are granted, whose
`wait_for_update` is the configured grace period, and whose region list is
attached exactly when provided non-empty; and when a still-valid stored
consent of `"all"` exists at activation time, an `update` granting all four
tracking categories is issued at the end of the same activation.  A second
run of the effect issues nothing. -/
theorem claim4_first_activation (env : EffectEnv) (es : EffectState)
    (consent consent2 : Option String) (r : List String)
    (h1 : env.consentMode = true) (h2 : env.mounted = true)
    (h3 : es.inited = false) :
    (consentModeEffect env consent es).1.dataLayerDefined = true ∧
    (consentModeEffect env consent es).1.gtagDefined = true ∧
    (consentModeEffect env consent es).1.inited = true ∧
    (consentModeEffect env consent es).2.head? =
      some (GtagCall.consentDefault
        (defaultConsentPayload env.waitForUpdate env.consentModeRegion)) ∧
    (defaultConsentPayload env.waitForUpdate env.consentModeRegion).ad_storage
      = "denied" ∧
    (defaultConsentPayload env.waitForUpdate
      env.consentModeRegion).ad_user_data = "denied" ∧
    (defaultConsentPayload env.waitForUpdate
      env.consentModeRegion).ad_personalization = "denied" ∧
    (defaultConsentPayload env.waitForUpdate
      env.consentModeRegion).analytics_storage = "denied" ∧
    (defaultConsentPayload env.waitForUpdate
      env.consentModeRegion).functionality_storage = "granted" ∧
    (defaultConsentPayload env.waitForUpdate
      env.consentModeRegion).personalization_storage = "granted" ∧
    (defaultConsentPayload env.waitForUpdate
      env.consentModeRegion).security_storage = "granted" ∧
    (defaultConsentPayload env.waitForUpdate
      env.consentModeRegion).wait_for_update = env.waitForUpdate ∧
    ((defaultConsentPayload env.waitForUpdate env.consentModeRegion).region =
        some r ↔ env.consentModeRegion = some r ∧ r ≠ []) ∧
    (consent = some "all" →
      ∃ pre, (consentModeEffect env consent es).2 =
        pre ++ [GtagCall.consentUpdate grantAllUpdate]) ∧
    (consentModeEffect env consent2 (consentModeEffect env consent es).1).2 =
      [] := by
  obtain ⟨cm, m, w, reg, adr, urlp⟩ := env
  obtain ⟨dl, g, i⟩ := es
  simp only at h1 h2 h3
  subst h1 h2 h3
  have hfields := defaultConsentPayload_fields w reg
  refine ⟨?_, ?_, ?_, ?_, hfields.1, hfields.2.1, hfields.2.2.1,
    hfields.2.2.2.1, hfields.2.2.2.2.1, hfields.2.2.2.2.2.1,
    hfields.2.2.2.2.2.2.1, hfields.2.2.2.2.2.2.2,
    defaultConsentPayload_region_iff w reg r, ?_, ?_⟩
  · simp [consentModeEffect]
  · simp [consentModeEffect]
  · simp [consentModeEffect]
  · simp [consentModeEffect]
  · intro hall
    subst hall
    refine ⟨[GtagCall.consentDefault (defaultConsentPayload w reg)]
      ++ (if adr = true then [GtagCall.setOpt "ads_data_redaction" true]
          else [])
      ++ (if urlp = true then [GtagCall.setOpt "url_passthrough" true]
          else []), ?_⟩
    simp [consentModeEffect, List.append_assoc]
  · simp [consentModeEffect]

/-- Witness for C4 at concrete inputs: a non-empty region is attached, the
stored-"all" update is issued last, and the second effect run is silent. -/
theorem claim4_witness :
    (consentModeEffect ⟨true, true, 500, some ["CA-QC"], false, false⟩
        (some "all") ⟨false, false, false⟩).1.inited = true ∧
    (consentModeEffect ⟨true, true, 500, some ["CA-QC"], false, false⟩
        (some "all") ⟨false, false, false⟩).2.head? =
      some (GtagCall.consentDefault
        (defaultConsentPayload 500 (some ["CA-QC"]))) ∧
    ((defaultConsentPayload 500 (some ["CA-QC"])).region = some ["CA-QC"] ↔
      (some ["CA-QC"] : Option (List String)) = some ["CA-QC"] ∧
        (["CA-QC"] : List String) ≠ []) ∧
    (consentModeEffect ⟨true, true, 500, some ["CA-QC"], false, false⟩ none
      (consentModeEffect ⟨true, true, 500, some ["CA-QC"], false, false⟩
        (some "all") ⟨false, false, false⟩).1).2 = [] :=
  have h := claim4_first_activation
    ⟨true, true, 500, some ["CA-QC"], false, false⟩ ⟨false, false, false⟩
    (some "all") none ["CA-QC"] rfl rfl rfl
  ⟨h.2.2.1, h.2.2.2.1, h.2.2.2.2.2.2.2.2.2.2.2.2.1, h.2.2.2.2.2.2.2.2.2.2.2.2.2.2⟩

-- ─── Claim C5 ───

/-- C5: `getConsentModeScript` is a pure function of its options record
(it is modelled as a Lean function on `ConsentModeDefaults`, with no state
argument, so it has no side effects at call time).  Its output is the
newline-join of a line list in which: the call queue is defined if
undefined and the `gtag` function declared; the `default` signal is issued
with exactly the resolved options serialized; the resolution of the empty
options record gives the documented defaults (tracking categories denied,
non-tracking granted, `wait_for_update` 500, `expiry_days` 365); each of
the two optional `set` calls is present iff its flag resolves to true; the
inline check reads the same two storage keys used by the component
(`STORAGE_KEY`, `STORAGE_DATE_KEY`) and contains the update granting all
four tracking categories; and that inline check fires iff the stored level
is `"all"` and the stored timestamp parses to an age of at most the
resolved `expiry_days`. -/
theorem claim5_script_generator (o : ConsentModeDefaults) (now : Int)
    (st : Storage) (h : st.failing = false) :
    getConsentModeScript o =
      String.intercalate "\n" (consentModeScriptLines o) ∧
    (consentModeScriptLines o).head? =
      some "window.dataLayer=window.dataLayer||[];" ∧
    "function gtag()\x7bdataLayer.push(arguments);\x7d" ∈
      consentModeScriptLines o ∧
    "gtag(\x27consent\x27,\x27default\x27," ++
      (serializeDefaultPayload (resolveDefaultObj o) ++ ");") ∈
      consentModeScriptLines o ∧
    resolveDefaultObj {} =
      ⟨"denied", "denied", "denied", "denied", "granted", "granted",
        "granted", 500, none⟩ ∧
    ({} : ConsentModeDefaults).expiry_days.getD DEFAULT_EXPIRY_DAYS = 365 ∧
    ("gtag(\x27set\x27,\x27ads_data_redaction\x27,true);" ∈
        consentModeScriptLines o ↔
      o.ads_data_redaction.getD false = true) ∧
    ("gtag(\x27set\x27,\x27url_passthrough\x27,true);" ∈
        consentModeScriptLines o ↔
      o.url_passthrough.getD false = true) ∧
    "    var c=localStorage.getItem(" ++ (jsonQuote STORAGE_KEY ++ ");") ∈
      consentModeScriptLines o ∧
    "    var d=localStorage.getItem(" ++
      (jsonQuote STORAGE_DATE_KEY ++ ");") ∈ consentModeScriptLines o ∧
    "          \x27ad_storage\x27:\x27granted\x27," ∈
      consentModeScriptLines o ∧
    "          \x27ad_user_data\x27:\x27granted\x27," ∈
      consentModeScriptLines o ∧
    "          \x27ad_personalization\x27:\x27granted\x27," ∈
      consentModeScriptLines o ∧
    "          \x27analytics_storage\x27:\x27granted\x27" ∈
      consentModeScriptLines o ∧
    (inlineCheckFires now (o.expiry_days.getD DEFAULT_EXPIRY_DAYS) st = true ↔
      st.level = some "all" ∧
      ∃ t, st.date.bind jsParseInt10 = some t ∧
        now - t ≤ (o.expiry_days.getD DEFAULT_EXPIRY_DAYS) * msPerDay) := by
  refine ⟨rfl, ?_, ?_, ?_, rfl, rfl, adsLine_mem_iff o, urlLine_mem_iff o,
    ?_, ?_, ?_, ?_, ?_, ?_,
    inlineCheckFires_iff now (o.expiry_days.getD DEFAULT_EXPIRY_DAYS) st h⟩
  all_goals simp [consentModeScriptLines]

/-- Witness for C5 at concrete inputs. -/
theorem claim5_witness :
    (⟨some "all", some "0", false⟩ : Storage).failing = false ∧
    (consentModeScriptLines {}).head? =
      some "window.dataLayer=window.dataLayer||[];" ∧
    ("gtag(\x27set\x27,\x27ads_data_redaction\x27,true);" ∈
        consentModeScriptLines ({} : ConsentModeDefaults) ↔
      ({} : ConsentModeDefaults).ads_data_redaction.getD false = true) :=
  have h5 := claim5_script_generator {} 0 ⟨some "all", some "0", false⟩ rfl
  ⟨rfl, h5.2.1, h5.2.2.2.2.2.2.1⟩

end CookieApp
